import Mathlib

/-!
# Verification of the strava-mcp Session & Query Layer

A shallow embedding, in Lean 4, of the core of the `strava-mcp` repository:
the session manager (`strava_mcp/auth.py` / `server.py`, `get_client`), the
activity query engine (`strava_mcp/services/activities.py`) and the
normalization layer (`strava_mcp/services/activities.py`,
`strava_mcp/services/streams.py`, `strava_mcp/models.py`).

Modelling conventions:
* Python floats are modelled as `Rat`, machine/epoch times as `Int`.
* A Python `Optional` value is an `Option`; Python truthiness of a numeric
  value (`if x:`) is `false` for `None` and for the zero value.
* The external `stravalib` client is a parameter: fetch operations are
  functions handed to the embedded code, and every fetch issued is recorded
  in a `calls` trace so that "no network call" claims are observable.
* `datetime.datetime.fromisoformat` is an oracle parameter
  `parse : String → Option Int`; the code around it (the `"Z"` replacement,
  the `except ValueError` fallback and the diagnostic) is embedded.
* Raising an exception is modelled with `Option`/explicit result fields;
  functions of the source that contain no `raise` and no fallible operation
  are embedded as total functions.
-/

namespace StravaMCP

/-! ## Python-semantics helpers -/

/-- Python `x or d` on an optional integer: `None` and `0` are falsy. -/
def orInt (x : Option Int) (d : Int) : Int :=
  match x with
  | none => d
  | some n => if n == 0 then d else n

/-- Python `x or d` on an optional string: `None` and `""` are falsy. -/
def orStr (x : Option String) (d : String) : String :=
  match x with
  | none => d
  | some s => if s == "" then d else s

/-- Python `str(x)` on an optional string-like value: `str(None) = "None"`. -/
def pyStr (x : Option String) : String :=
  match x with
  | none => "None"
  | some s => s

/-- `float(x) if x else 0.0`: absent or zero gives `0`. -/
def floatOrZero (x : Option Rat) : Rat :=
  match x with
  | none => 0
  | some q => if q == 0 then 0 else q

/-- `float(x) if x else None`: absent or zero gives `None` (truthiness). -/
def floatOrNone (x : Option Rat) : Option Rat :=
  match x with
  | none => none
  | some q => if q == 0 then none else some q

/-- `getattr(x, "seconds", 0) if x else 0` on an optional duration, the
duration being represented by its `seconds` value; a zero duration is falsy. -/
def secondsOr0 (x : Option Int) : Int :=
  match x with
  | none => 0
  | some s => if s == 0 then 0 else s

/-- A Python attribute as `getattr` observes it: the attribute may be
missing from the object, present with value `None`, or present with a
value. `getattr`'s default fires only for a missing attribute — a
present-but-null attribute passes `None` through. -/
inductive PyAttr (α : Type) where
  | missing
  | null
  | val (a : α)
deriving DecidableEq, Repr

/-- `getattr(obj, attr, d)`: the default `d` only for a missing attribute;
`None` (here `none`) passes through when the attribute is present but
null. -/
def getattrD {α : Type} (x : PyAttr α) (d : α) : Option α :=
  match x with
  | .missing => some d
  | .null => none
  | .val a => some a

/-- Prefix test on character lists: `needle` matches at the head of `hay`. -/
def subAt : List Char → List Char → Bool
  | [], _ => true
  | _ :: _, [] => false
  | c :: cs, d :: ds => c == d && subAt cs ds

/-- Python `needle in hay` substring containment on character lists. -/
def hasSub (needle : List Char) : List Char → Bool
  | [] => needle.isEmpty
  | d :: ds => subAt needle (d :: ds) || hasSub needle ds

/-- The empty string is a substring of everything (`"" in s` is `True`). -/
theorem hasSub_nil (hay : List Char) : hasSub [] hay = true := by
  induction hay with
  | nil => rfl
  | cons d ds ih => simp [hasSub, subAt]

/-- Python `str.lower()`, on the character list of the string. -/
def lowerChars (l : List Char) : List Char := l.map Char.toLower

/-! ## Data model (`strava_mcp/models.py`) -/

/-- `models.ActivitySummary` (dataclass). -/
structure ActivitySummary where
  id : Int
  name : String
  type : String
  start_date : Option String
  distance : Rat
  moving_time : Int
  total_elevation_gain : Rat
  average_speed : Rat := 0
  max_speed : Rat := 0
deriving DecidableEq, Repr

/-- `models.ActivityDetails` (dataclass). -/
structure ActivityDetails where
  id : Int
  name : String
  description : Option String
  type : String
  distance : Rat
  moving_time : Int
  elapsed_time : Int
  total_elevation_gain : Rat
  average_speed : Rat
  max_speed : Rat
  calories : Option Rat
  device_name : Option String
deriving DecidableEq, Repr

/-- `models.LapSummary` (dataclass). The `lap_index` field is annotated
`int` but the dataclass does not enforce it: `get_activity_laps` can store
Python `None` there (bare `getattr` on a present-but-null attribute), so it
is embedded as `Option Int` (`none` = Python `None`). -/
structure LapSummary where
  id : Int
  activity_id : Int
  lap_index : Option Int
  name : String
  elapsed_time : Int
  moving_time : Int
  distance : Rat
  average_speed : Rat
  max_speed : Rat
  average_cadence : Option Rat
  average_watts : Option Rat
  average_heartrate : Option Rat
  max_heartrate : Option Rat
  total_elevation_gain : Rat
deriving DecidableEq, Repr

/-! ## Raw upstream objects

A raw `stravalib` activity/lap as the normalization code observes it: every
field may be absent (`None`). Durations are carried as their `seconds`
value, datetimes as their `isoformat()` rendering, floats as `Rat`. -/

/-- A raw activity as returned by `client.get_activities`/`client.get_activity`. -/
structure RawActivity where
  id : Option Int := none
  name : Option String := none
  description : Option String := none
  type : Option String := none
  start_date : Option String := none
  distance : Option Rat := none
  moving_time : Option Int := none
  elapsed_time : Option Int := none
  total_elevation_gain : Option Rat := none
  average_speed : Option Rat := none
  max_speed : Option Rat := none
  calories : Option Rat := none
  device_name : Option String := none
deriving DecidableEq, Repr

/-- A raw lap as returned by `client.get_activity_laps`. The fields the
source reads with bare attribute access are `Option` (`none` = null);
`activity_id` and `lap_index` are read with `getattr(lap, ..., 0)` and so
are `PyAttr` (missing / null / value are distinguishable there). -/
structure RawLap where
  id : Option Int := none
  activity_id : PyAttr Int := .missing
  lap_index : PyAttr Int := .missing
  name : Option String := none
  elapsed_time : Option Int := none
  moving_time : Option Int := none
  distance : Option Rat := none
  average_speed : Option Rat := none
  max_speed : Option Rat := none
  average_cadence : Option Rat := none
  average_watts : Option Rat := none
  average_heartrate : Option Rat := none
  max_heartrate : Option Rat := none
  total_elevation_gain : Option Rat := none
deriving DecidableEq, Repr

/-! ## Normalization (`services/activities.py`, `services/streams.py`) -/

/-- The `ActivitySummary(...)` construction of `list_activities` /
`search_activities` (`services/activities.py`). -/
def normalizeSummary (a : RawActivity) : ActivitySummary :=
  { id := orInt a.id 0
    name := orStr a.name ""
    type := pyStr a.type
    start_date := a.start_date
    distance := floatOrZero a.distance
    moving_time := secondsOr0 a.moving_time
    total_elevation_gain := floatOrZero a.total_elevation_gain }

/-- The `ActivityDetails(...)` construction of `get_activity_details`
(`services/activities.py`, lines 112-138). -/
def normalizeDetail (a : RawActivity) : ActivityDetails :=
  { id := orInt a.id 0
    name := orStr a.name ""
    description := a.description
    type := pyStr a.type
    distance := floatOrZero a.distance
    moving_time := secondsOr0 a.moving_time
    elapsed_time := secondsOr0 a.elapsed_time
    total_elevation_gain := floatOrZero a.total_elevation_gain
    average_speed := floatOrZero a.average_speed
    max_speed := floatOrZero a.max_speed
    calories := a.calories
    device_name := a.device_name }

/-- The `LapSummary(...)` construction of `get_activity_laps`
(`services/streams.py`, lines 8-40). -/
def normalizeLap (l : RawLap) : LapSummary :=
  { id := orInt l.id 0
    activity_id := orInt (getattrD l.activity_id 0) 0
    lap_index := getattrD l.lap_index 0
    name := orStr l.name ""
    elapsed_time := secondsOr0 l.elapsed_time
    moving_time := secondsOr0 l.moving_time
    distance := floatOrZero l.distance
    average_speed := floatOrZero l.average_speed
    max_speed := floatOrZero l.max_speed
    average_cadence := floatOrNone l.average_cadence
    average_watts := floatOrNone l.average_watts
    average_heartrate := floatOrNone l.average_heartrate
    max_heartrate := floatOrNone l.max_heartrate
    total_elevation_gain := floatOrZero l.total_elevation_gain }

/-- `get_activity_laps` (`services/streams.py`): fetch, then normalize each lap. -/
def get_activity_laps (fetchLaps : Int → List RawLap) (activity_id : Int) :
    List LapSummary :=
  (fetchLaps activity_id).map normalizeLap

/-! ## Athlete stats normalization (`services/athlete.py`, identical logic
in `server.py` `_get_athlete_stats`) -/

/-- `models.ActivityTotals` (dataclass, all fields defaulted). -/
structure ActivityTotals where
  distance : Rat := 0
  achievement_count : Int := 0
  elevation_gain : Rat := 0
deriving DecidableEq, Repr

/-- `models.AthleteStats` (dataclass). The name fields are annotated `str`
but the dataclass does not enforce it: the bare `getattr` in
`get_athlete_stats` can store Python `None` there, so they are embedded as
`Option String` (`none` = Python `None`). -/
structure AthleteStats where
  firstname : Option String
  lastname : Option String
  recent_run_totals : ActivityTotals
  all_run_totals : ActivityTotals
  recent_ride_totals : ActivityTotals
deriving DecidableEq, Repr

/-- A raw totals object (`stats.recent_run_totals` etc.), each attribute
read through `get_val`. -/
structure RawTotals where
  distance : PyAttr Rat := .missing
  achievement_count : PyAttr Int := .missing
  elevation_gain : PyAttr Rat := .missing
deriving DecidableEq, Repr

/-- The raw athlete object; only the name attributes are read. -/
structure RawAthlete where
  firstname : PyAttr String := .missing
  lastname : PyAttr String := .missing
deriving DecidableEq, Repr

/-- The raw stats object; each totals sub-object may itself be `None`
(falsy). -/
structure RawStats where
  recent_run_totals : Option RawTotals := none
  all_run_totals : Option RawTotals := none
  recent_ride_totals : Option RawTotals := none
deriving DecidableEq, Repr

/-- `get_val(obj, attr, default)` (`services/athlete.py`, lines 12-16):
default when the object is falsy, the attribute missing, or its value
`None`. -/
def get_val {α : Type} (obj : Option RawTotals) (attr : RawTotals → PyAttr α)
    (default : α) : α :=
  match obj with
  | none => default
  | some o =>
    match attr o with
    | .missing => default
    | .null => default
    | .val v => v

/-- `get_athlete_stats` (`services/athlete.py`, lines 7-36) applied to the
already-fetched athlete and stats objects: the name fields use bare
`getattr(athlete, ..., "")`, every numeric field goes through `get_val`. -/
def get_athlete_stats (athlete : RawAthlete) (stats : RawStats) :
    AthleteStats :=
  { firstname := getattrD athlete.firstname ""
    lastname := getattrD athlete.lastname ""
    recent_run_totals :=
      { distance := get_val stats.recent_run_totals (fun o => o.distance) 0
        achievement_count :=
          get_val stats.recent_run_totals (fun o => o.achievement_count) 0 }
    all_run_totals :=
      { distance := get_val stats.all_run_totals (fun o => o.distance) 0 }
    recent_ride_totals :=
      { distance := get_val stats.recent_ride_totals (fun o => o.distance) 0
        elevation_gain :=
          get_val stats.recent_ride_totals (fun o => o.elevation_gain) 0 } }

/-! ## Query engine (`services/activities.py`)

The `stravalib` client's `get_activities` is a parameter
`fetch : Option Int → Option Int → Int → List RawActivity`
(arguments: `before`, `after`, `limit`); each call the engine issues is
recorded in a `calls` trace (a network call made by the code is exactly an
element of that trace). -/

/-- One `client.get_activities(before=..., after=..., limit=...)` call. -/
structure FetchCall where
  before : Option Int
  after : Option Int
  limit : Int
deriving DecidableEq, Repr

/-- Result of `list_activities`: the fetches issued and the returned list. -/
structure ListOutput where
  calls : List FetchCall
  result : List ActivitySummary
deriving DecidableEq, Repr

/-- `list_activities` (`services/activities.py`, lines 10-33): one unguarded
`client.get_activities(limit=limit)` call, then normalization of every
fetched activity in order. The source contains no validation of `limit`
and no `raise`, so the embedding is total. -/
def list_activities (fetch : Option Int → Option Int → Int → List RawActivity)
    (limit : Int) : ListOutput :=
  { calls := [⟨none, none, limit⟩]
    result := (fetch none none limit).map normalizeSummary }

/-- Result of `search_activities`: fetches issued, diagnostics written to
stderr, and the returned list. -/
structure SearchOutput where
  calls : List FetchCall
  log : List String
  result : List ActivitySummary
deriving DecidableEq, Repr

/-- The `try: fromisoformat(s.replace("Z", "+00:00")) except ValueError`
block guarded by `if s:` (`services/activities.py`, lines 51-61), for one
bound. Returns the parsed instant (or `none`) and the diagnostics emitted. -/
def parseBound (parse : String → Option Int) (s : Option String)
    (label : String) : Option Int × List String :=
  match s with
  | none => (none, [])
  | some str =>
    if str == "" then (none, [])
    else
      match parse (str.replace "Z" "+00:00") with
      | some d => (some d, [])
      | none => (none, ["Warning: Invalid " ++ label ++ " date format: " ++ str])

/-- The filter chain of `search_activities` (lines 84-94): the four `if
... : continue` tests, in source order. `query_lower`/`type_lower` are the
needles precomputed on lines 69-70, already lowercased (`None` when the
caller-supplied filter was falsy); the activity name, type string and
distance are the values computed on lines 79-81. -/
def keepActivity (query_lower type_lower : Option (List Char))
    (min_distance max_distance : Option Rat) (a : RawActivity) : Bool :=
  if (match query_lower with
      | some q => !(hasSub q (lowerChars (orStr a.name "").toList))
      | none => false) then false
  else if (match type_lower with
      | some t => !(hasSub t (lowerChars (pyStr a.type).toList))
      | none => false) then false
  else if (match min_distance with
      | some m => decide (floatOrZero a.distance < m)
      | none => false) then false
  else if (match max_distance with
      | some m => decide (m < floatOrZero a.distance)
      | none => false) then false
  else true

/-- `search_activities` (`services/activities.py`, lines 36-109): parse the
date bounds (malformed ⇒ absent + diagnostic), fetch once with the parsed
bounds and the limit, then filter and normalize in fetch order. -/
def search_activities (parse : String → Option Int)
    (fetch : Option Int → Option Int → Int → List RawActivity)
    (query activity_type after before : Option String)
    (min_distance max_distance : Option Rat) (limit : Int) : SearchOutput :=
  { calls := [⟨(parseBound parse before "before").1,
              (parseBound parse after "after").1, limit⟩]
    log := (parseBound parse after "after").2 ++
      (parseBound parse before "before").2
    result := ((fetch (parseBound parse before "before").1
          (parseBound parse after "after").1 limit).filter
        (keepActivity
          (match query with
           | none => none
           | some q => if q == "" then none else some (lowerChars q.toList))
          (match activity_type with
           | none => none
           | some t => if t == "" then none else some (lowerChars t.toList))
          min_distance max_distance)).map normalizeSummary }

/-! ## Session manager (`strava_mcp/auth.py` `get_client`, identical copy in
`server.py`)

The session is the module-global pair (`_client`'s tokens, `_token_expires_at`).
The refresh exchange `_client.refresh_access_token(...)` either raises or
returns a dict; the three `response[...]` subscripts are modelled as `Option`
fields (a missing key raises `KeyError`, caught by the same `except`). The
assignments to `_client.access_token`, `_client.refresh_token` and
`_token_expires_at` happen in source order, so a `KeyError` partway through
leaves the earlier assignments in place. -/

/-- The session state: `_client.access_token`, `_client.refresh_token`,
`_token_expires_at`. -/
structure SessionState where
  access_token : String
  refresh_token : String
  expires_at : Int
deriving DecidableEq, Repr

/-- The dict returned by `refresh_access_token`; `none` models a missing key
(subscripting it raises `KeyError`). -/
structure RefreshResponse where
  access_token : Option String
  refresh_token : Option String
  expires_at : Option Int
deriving DecidableEq, Repr

/-- Behaviour of the one refresh exchange the code may perform. -/
inductive ExchangeOutcome where
  | raises
  | returns (r : RefreshResponse)
deriving DecidableEq, Repr

/-- Whether `get_client` returned normally or raised the generic
`RuntimeError("Failed to authenticate with Strava. Check server logs.")`. -/
inductive CallResult where
  | ok
  | authError
deriving DecidableEq, Repr

/-- Result of one `get_client()` call: the session state after the call, how
the call ended, and how many refresh exchanges were attempted. -/
structure GetClientResult where
  state : SessionState
  result : CallResult
  attempts : Nat
deriving DecidableEq, Repr

/-- `get_client` (`strava_mcp/auth.py`, lines 13-41): refresh when
`time.time() > _token_expires_at - 300`, assigning the three response fields
in source order inside the `try`, with every exception mapped to the generic
`RuntimeError`. -/
def get_client (now : Int) (st : SessionState) (ex : ExchangeOutcome) :
    GetClientResult :=
  if st.expires_at - 300 < now then
    match ex with
    | .raises => ⟨st, .authError, 1⟩
    | .returns r =>
      match r.access_token with
      | none => ⟨st, .authError, 1⟩
      | some a =>
        let st1 := { st with access_token := a }
        match r.refresh_token with
        | none => ⟨st1, .authError, 1⟩
        | some rt =>
          let st2 := { st1 with refresh_token := rt }
          match r.expires_at with
          | none => ⟨st2, .authError, 1⟩
          | some e => ⟨{ st2 with expires_at := e }, .ok, 1⟩
  else ⟨st, .ok, 0⟩

/-! ## Client id representation for the refresh exchange
(`strava_mcp/auth.py`, lines 25-27) -/

/-- The value passed as `client_id=` to the exchange. -/
inductive ClientIdArg where
  | intArg (n : Int)
  | strArg (s : String)
deriving DecidableEq, Repr

/-- Python truthiness of a string: nonempty. -/
def pyTruthyStr (s : String) : Bool := !s.toList.isEmpty

/-- The Unicode character database as the two per-character functions the
embedded code consults: `isDigitChar` is membership in Numeric_Type=Digit
(what `str.isdigit` tests character by character), and `decimalDigitVal`
gives the value of decimal-digit characters (category Nd, the only
characters `int()` accepts). The database has characters — `'²'`
(U+00B2) among them — that are digits without being decimal. -/
structure UnicodeTables where
  isDigitChar : Char → Bool
  decimalDigitVal : Char → Option Nat

/-- Python `str.isdigit()`: nonempty and every character a digit
character. -/
def pyIsdigit (u : UnicodeTables) (s : String) : Bool :=
  !s.toList.isEmpty && s.toList.all u.isDigitChar

/-- The value `int()` computes from a digit sequence: any character
without a decimal value makes the conversion raise (`none`). -/
def digitsVal (u : UnicodeTables) (l : List Char) : Option Nat :=
  l.foldl
    (fun acc c =>
      match acc, u.decimalDigitVal c with
      | some n, some d => some (n * 10 + d)
      | _, _ => none)
    (some 0)

/-- Python `int(s)` on a string: optional sign, then at least one decimal
digit; `none` models the `ValueError` (whitespace stripping and
underscore separators, irrelevant to a client id, are not modelled). -/
def pyInt (u : UnicodeTables) (s : String) : Option Int :=
  match s.toList with
  | [] => none
  | c :: rest =>
    if c == '-' then
      if rest.isEmpty then none
      else (digitsVal u rest).map (fun n => -(n : Int))
    else if c == '+' then
      if rest.isEmpty then none
      else (digitsVal u rest).map (fun n => (n : Int))
    else (digitsVal u (c :: rest)).map (fun n => (n : Int))

/-- `int(CLIENT_ID) if CLIENT_ID and CLIENT_ID.isdigit() else CLIENT_ID`
(`strava_mcp/auth.py`, lines 25-27): the expression evaluated inside the
`try` of `get_client`. `none` models `int()` raising `ValueError` inside
the guarded branch (caught by the surrounding `except`, so the call fails
before any exchange). -/
def clientIdForExchange (u : UnicodeTables) (cid : String) :
    Option ClientIdArg :=
  if pyTruthyStr cid && pyIsdigit u cid then
    (pyInt u cid).map ClientIdArg.intArg
  else some (.strArg cid)

/-- The fragment of the real character database covering the characters
used below, exactly as in Python: ASCII `'0'`-`'9'` are decimal digits
with their usual values; `'٣'` (U+0663, ARABIC-INDIC DIGIT THREE) is a
decimal digit of value 3 (`int("٣") == 3`); `'²'` (U+00B2, SUPERSCRIPT
TWO) is a digit character (`"²".isdigit()` is `True`) with no decimal
value (`int("²")` raises `ValueError`). -/
def unicodeFragment : UnicodeTables :=
  { isDigitChar := fun c => c.isDigit || c == '٣' || c == '²'
    decimalDigitVal := fun c =>
      if c == '٣' then some 3
      else if c.isDigit then some (c.toNat - 48)
      else none }

/-! ## Streams (`services/streams.py`, `models.ActivityStreams`) -/

/-- A sample sequence carried by one stream. -/
inductive StreamVal where
  | ints (l : List Int)
  | floats (l : List Rat)
  | coords (l : List (List Rat))
  | bools (l : List Bool)
deriving DecidableEq, Repr

/-- `models.ActivityStreams` (dataclass): every field optional, default
unset. -/
structure ActivityStreams where
  time : Option (List Int) := none
  latlng : Option (List (List Rat)) := none
  distance : Option (List Rat) := none
  altitude : Option (List Rat) := none
  velocity_smooth : Option (List Rat) := none
  heartrate : Option (List Int) := none
  cadence : Option (List Int) := none
  watts : Option (List Int) := none
  temp : Option (List Int) := none
  moving : Option (List Bool) := none
  grade_smooth : Option (List Rat) := none
deriving DecidableEq, Repr

/-- `asdict(self).items()` in declaration order, each value as an optional
`StreamVal`. -/
def ActivityStreams.entries (s : ActivityStreams) :
    List (String × Option StreamVal) :=
  [("time", s.time.map .ints),
   ("latlng", s.latlng.map .coords),
   ("distance", s.distance.map .floats),
   ("altitude", s.altitude.map .floats),
   ("velocity_smooth", s.velocity_smooth.map .floats),
   ("heartrate", s.heartrate.map .ints),
   ("cadence", s.cadence.map .ints),
   ("watts", s.watts.map .ints),
   ("temp", s.temp.map .ints),
   ("moving", s.moving.map .bools),
   ("grade_smooth", s.grade_smooth.map .floats)]

/-- `ActivityStreams.to_dict` (`models.py`, lines 122-124):
`{k: v for k, v in asdict(self).items() if v is not None}`. -/
def ActivityStreams.to_dict (s : ActivityStreams) : List (String × StreamVal) :=
  s.entries.filterMap (fun p => p.2.map (fun v => (p.1, v)))

/-- The eleven stream names, in field order (spec §3/§6). -/
def streamKeys : List String :=
  ["time", "latlng", "distance", "altitude", "velocity_smooth", "heartrate",
   "cadence", "watts", "temp", "moving", "grade_smooth"]

/-- Spec-side predicate: the stream named `k` is set in the bundle. -/
def streamIsSet (s : ActivityStreams) (k : String) : Bool :=
  if k == "time" then s.time.isSome
  else if k == "latlng" then s.latlng.isSome
  else if k == "distance" then s.distance.isSome
  else if k == "altitude" then s.altitude.isSome
  else if k == "velocity_smooth" then s.velocity_smooth.isSome
  else if k == "heartrate" then s.heartrate.isSome
  else if k == "cadence" then s.cadence.isSome
  else if k == "watts" then s.watts.isSome
  else if k == "temp" then s.temp.isSome
  else if k == "moving" then s.moving.isSome
  else if k == "grade_smooth" then s.grade_smooth.isSome
  else false

/-- A raw entry of the `client.get_activity_streams` response dict, for one
stream name: the key may be missing, present with an object lacking a
`data` attribute, or present with data. -/
inductive RawStream (α : Type) where
  | missing
  | noData
  | withData (d : α)
deriving DecidableEq, Repr

/-- The raw streams response dict, one entry per known stream name. -/
structure RawStreams where
  time : RawStream (List Int) := .missing
  latlng : RawStream (List (List Rat)) := .missing
  distance : RawStream (List Rat) := .missing
  altitude : RawStream (List Rat) := .missing
  velocity_smooth : RawStream (List Rat) := .missing
  heartrate : RawStream (List Int) := .missing
  cadence : RawStream (List Int) := .missing
  watts : RawStream (List Int) := .missing
  temp : RawStream (List Int) := .missing
  moving : RawStream (List Bool) := .missing
  grade_smooth : RawStream (List Rat) := .missing
deriving DecidableEq, Repr

/-- `get_stream_data` (`services/streams.py`, lines 56-60):
`getattr(stream, "data", None)` when the key is present, `None` otherwise. -/
def get_stream_data {α : Type} : RawStream α → Option α
  | .missing => none
  | .noData => none
  | .withData d => some d

/-- `get_activity_streams` (`services/streams.py`, lines 43-74) applied to
an already-fetched raw response. -/
def get_activity_streams (r : RawStreams) : ActivityStreams :=
  { time := get_stream_data r.time
    latlng := get_stream_data r.latlng
    distance := get_stream_data r.distance
    altitude := get_stream_data r.altitude
    velocity_smooth := get_stream_data r.velocity_smooth
    heartrate := get_stream_data r.heartrate
    cadence := get_stream_data r.cadence
    watts := get_stream_data r.watts
    temp := get_stream_data r.temp
    moving := get_stream_data r.moving
    grade_smooth := get_stream_data r.grade_smooth }

/-- Replace every present-but-data-less stream entry by a missing one. -/
def stripNoData (r : RawStreams) : RawStreams :=
  { time := if r.time == .noData then .missing else r.time
    latlng := if r.latlng == .noData then .missing else r.latlng
    distance := if r.distance == .noData then .missing else r.distance
    altitude := if r.altitude == .noData then .missing else r.altitude
    velocity_smooth :=
      if r.velocity_smooth == .noData then .missing else r.velocity_smooth
    heartrate := if r.heartrate == .noData then .missing else r.heartrate
    cadence := if r.cadence == .noData then .missing else r.cadence
    watts := if r.watts == .noData then .missing else r.watts
    temp := if r.temp == .noData then .missing else r.temp
    moving := if r.moving == .noData then .missing else r.moving
    grade_smooth :=
      if r.grade_smooth == .noData then .missing else r.grade_smooth }

/-! ## Spec-side definitions and shared lemmas -/

/-- Spec §4.3 filter-phase predicate (the specification's wording): the
conjunction, in order, of (a) case-insensitive substring match of `query`
against the activity name, (b) case-insensitive substring match of
`activity_type` against the type string, (c) the inclusive `min_distance`
lower bound, (d) the inclusive `max_distance` upper bound; an unset
predicate is vacuously true. -/
def specPredicate (query activity_type : Option String)
    (min_distance max_distance : Option Rat) (a : RawActivity) : Bool :=
  (match query with
   | some q => hasSub (lowerChars q.toList) (lowerChars (orStr a.name "").toList)
   | none => true) &&
  (match activity_type with
   | some t => hasSub (lowerChars t.toList) (lowerChars (pyStr a.type).toList)
   | none => true) &&
  (match min_distance with
   | some m => decide (m ≤ floatOrZero a.distance)
   | none => true) &&
  (match max_distance with
   | some m => decide (floatOrZero a.distance ≤ m)
   | none => true)

/-- A chain of early-exit `if`s is the conjunction of the negated tests. -/
theorem ifChain (b1 b2 b3 b4 : Bool) :
    (if b1 then false
     else if b2 then false
     else if b3 then false
     else if b4 then false
     else true) = (!b1 && !b2 && !b3 && !b4) := by
  cases b1 <;> cases b2 <;> cases b3 <;> cases b4 <;> rfl

/-- The negated substring `continue`-test on a precomputed lowered needle
agrees with the spec's substring predicate. -/
theorem lowered_needle_cond (q : Option String) (hay : List Char) :
    (!(match (match q with
         | none => none
         | some s => if s == "" then none else some (lowerChars s.toList)) with
       | some ql => !(hasSub ql hay)
       | none => false))
      = (match q with
         | some s => hasSub (lowerChars s.toList) hay
         | none => true) := by
  rcases q with _ | s
  · rfl
  · cases hs : (s == "") with
    | true =>
      have he : s = "" := beq_iff_eq.mp hs
      subst he
      simp [lowerChars, hasSub_nil]
    | false => simp [hs, Bool.not_not]

/-- The negated strict `continue`-test for the lower bound agrees with the
spec's inclusive lower bound. -/
theorem min_bound_cond (mo : Option Rat) (d : Rat) :
    (!(match mo with
       | some m => decide (d < m)
       | none => false))
      = (match mo with
         | some m => decide (m ≤ d)
         | none => true) := by
  rcases mo with _ | m
  · rfl
  · rw [← decide_not]
    exact decide_eq_decide.mpr not_lt

/-- The negated strict `continue`-test for the upper bound agrees with the
spec's inclusive upper bound. -/
theorem max_bound_cond (mo : Option Rat) (d : Rat) :
    (!(match mo with
       | some m => decide (m < d)
       | none => false))
      = (match mo with
         | some m => decide (d ≤ m)
         | none => true) := by
  rcases mo with _ | m
  · rfl
  · rw [← decide_not]
    exact decide_eq_decide.mpr not_lt

/-- The source's `continue`-chain equals the spec's conjunction, activity by
activity. -/
theorem keep_eq_spec (query activity_type : Option String)
    (mn mx : Option Rat) (a : RawActivity) :
    keepActivity
      (match query with
       | none => none
       | some q => if q == "" then none else some (lowerChars q.toList))
      (match activity_type with
       | none => none
       | some t => if t == "" then none else some (lowerChars t.toList))
      mn mx a
      = specPredicate query activity_type mn mx a := by
  unfold keepActivity specPredicate
  rw [ifChain, lowered_needle_cond, lowered_needle_cond, min_bound_cond,
    max_bound_cond]

/-- Keys surviving the comprehension's `is not None` test are the keys of
entries whose value is set. -/
theorem filterMap_keys (l : List (String × Option StreamVal)) :
    (l.filterMap (fun p => p.2.map (fun v => (p.1, v)))).map Prod.fst
      = (l.filter (fun p => p.2.isSome)).map Prod.fst := by
  induction l with
  | nil => rfl
  | cons p rest ih =>
    obtain ⟨k, o⟩ := p
    cases o with
    | none => simpa using ih
    | some v => simpa using ih

/-- One entry of the key-filtering comparison, processed without unfolding
the tail. -/
theorem filter_keys_step (k : String) (o : Option StreamVal)
    (rest : List (String × Option StreamVal)) (ks : List String)
    (q : String → Bool) (hq : q k = o.isSome)
    (ih : (rest.filter (fun p => p.2.isSome)).map Prod.fst = ks.filter q) :
    (((k, o) :: rest).filter (fun p => p.2.isSome)).map Prod.fst
      = (k :: ks).filter q := by
  rw [List.filter_cons, List.filter_cons, hq]
  cases o with
  | none => simpa using ih
  | some v => simpa using ih

/-- The keys of a serialized `StreamBundle` are exactly the stream names
whose field is set, in field order. -/
theorem to_dict_keys_eq (s : ActivityStreams) :
    s.to_dict.map Prod.fst = streamKeys.filter (streamIsSet s) := by
  rw [ActivityStreams.to_dict, filterMap_keys, ActivityStreams.entries,
    streamKeys]
  refine filter_keys_step _ _ _ _ _ (by simp [streamIsSet]) ?_
  refine filter_keys_step _ _ _ _ _ (by simp [streamIsSet]) ?_
  refine filter_keys_step _ _ _ _ _ (by simp [streamIsSet]) ?_
  refine filter_keys_step _ _ _ _ _ (by simp [streamIsSet]) ?_
  refine filter_keys_step _ _ _ _ _ (by simp [streamIsSet]) ?_
  refine filter_keys_step _ _ _ _ _ (by simp [streamIsSet]) ?_
  refine filter_keys_step _ _ _ _ _ (by simp [streamIsSet]) ?_
  refine filter_keys_step _ _ _ _ _ (by simp [streamIsSet]) ?_
  refine filter_keys_step _ _ _ _ _ (by simp [streamIsSet]) ?_
  refine filter_keys_step _ _ _ _ _ (by simp [streamIsSet]) ?_
  refine filter_keys_step _ _ _ _ _ (by simp [streamIsSet]) ?_
  rfl

/-- `get_stream_data` does not distinguish a data-less entry from a missing
one. -/
theorem get_stream_data_strip {α : Type} [DecidableEq α] (x : RawStream α) :
    get_stream_data (if x == RawStream.noData then RawStream.missing else x)
      = get_stream_data x := by
  cases x <;> rfl

/-- A raised conversion is absorbing in the digit fold. -/
theorem foldl_digits_none (u : UnicodeTables) (l : List Char) :
    l.foldl
      (fun acc c =>
        match acc, u.decimalDigitVal c with
        | some n, some d => some (n * 10 + d)
        | _, _ => none)
      none = none := by
  induction l with
  | nil => rfl
  | cons c l ih =>
    rw [List.foldl_cons]
    cases u.decimalDigitVal c <;> simpa using ih

/-- The digit fold succeeds exactly when every character has a decimal
value. -/
theorem foldl_digits_some (u : UnicodeTables) (l : List Char) (n : Nat) :
    (l.foldl
        (fun acc c =>
          match acc, u.decimalDigitVal c with
          | some n, some d => some (n * 10 + d)
          | _, _ => none)
        (some n)).isSome
      = l.all (fun c => (u.decimalDigitVal c).isSome) := by
  induction l generalizing n with
  | nil => rfl
  | cons c l ih =>
    rw [List.foldl_cons, List.all_cons]
    cases h : u.decimalDigitVal c with
    | none => simp [h, foldl_digits_none]
    | some d => simp [h, ih]

/-- `int()` succeeds on a digit sequence exactly when every character is a
decimal digit. -/
theorem digitsVal_isSome (u : UnicodeTables) (l : List Char) :
    (digitsVal u l).isSome = l.all (fun c => (u.decimalDigitVal c).isSome) :=
  foldl_digits_some u l 0

/-- On an `isdigit` string, `int()` is the unsigned digit conversion: the
sign branches cannot fire because the sign characters are not digit
characters. -/
theorem pyInt_of_isdigit (u : UnicodeTables)
    (hminus : u.isDigitChar '-' = false) (hplus : u.isDigitChar '+' = false)
    (s : String) (h : pyIsdigit u s = true) :
    pyInt u s = (digitsVal u s.toList).map (fun n => (n : Int)) := by
  unfold pyIsdigit at h
  rw [Bool.and_eq_true] at h
  obtain ⟨hne, hall⟩ := h
  unfold pyInt
  cases hl : s.toList with
  | nil => rw [hl] at hne; simp at hne
  | cons c rest =>
    rw [hl] at hall
    rw [List.all_cons, Bool.and_eq_true] at hall
    obtain ⟨hc, hrest⟩ := hall
    have hcm : (c == '-') = false := by
      cases hcc : c == '-' with
      | false => rfl
      | true =>
        have := beq_iff_eq.mp hcc
        subst this
        rw [hminus] at hc
        exact absurd hc (by decide)
    have hcp : (c == '+') = false := by
      cases hcc : c == '+' with
      | false => rfl
      | true =>
        have := beq_iff_eq.mp hcc
        subst this
        rw [hplus] at hc
        exact absurd hc (by decide)
    simp [hcm, hcp]

/-! ## Claim theorems -/

/-- C1 counterexample: `list_activities` called with `limit = 0` (a
non-positive limit) does not fail with `InvalidArgument` before a network
call — it issues the fetch `get_activities(limit=0)` and returns normally,
so the claimed guard does not exist in the code. -/
theorem c1_no_invalid_argument_guard :
    (list_activities (fun _ _ _ => []) 0).calls = [⟨none, none, 0⟩] ∧
    (list_activities (fun _ _ _ => []) 0).result = [] :=
  ⟨rfl, rfl⟩

/-- C1 (amended): for every `limit ≤ 0`, `list_activities(limit)` performs
no validation: it issues exactly one fetch carrying that limit and returns
the normalized fetched activities; no `InvalidArgument` condition is raised
and the network call is not prevented. -/
theorem list_activities_no_limit_validation
    (fetch : Option Int → Option Int → Int → List RawActivity) (limit : Int)
    (h : limit ≤ 0) :
    (list_activities fetch limit).calls = [⟨none, none, limit⟩] ∧
    (list_activities fetch limit).result
      = (fetch none none limit).map normalizeSummary :=
  ⟨rfl, rfl⟩

/-- C1 witness: the amended claim at `limit = -3` on an empty upstream. -/
theorem list_activities_no_limit_validation_w :
    (list_activities (fun _ _ _ => []) (-3)).calls = [⟨none, none, -3⟩] ∧
    (list_activities (fun _ _ _ => []) (-3)).result = [] :=
  list_activities_no_limit_validation (fun _ _ _ => []) (-3) (by decide)

/-- C2 counterexample: at `now = expires_at − 300` exactly (here `700` and
`1000`), the claim demands exactly one refresh exchange, but `get_client`
compares strictly (`time.time() > _token_expires_at - 300`) and attempts
none. -/
theorem c2_boundary_no_refresh :
    (700 : Int) ≥ 1000 - 300 ∧
    (get_client 700 ⟨"tokA", "tokR", 1000⟩
        (.returns ⟨some "newA", some "newR", some 2000⟩)).attempts = 0 :=
  ⟨by decide, rfl⟩

/-- C2 (amended): if `now ≤ expires_at − 300` at call time, `get_client`
performs no refresh exchange and returns the held session unchanged; if
`now > expires_at − 300` (strictly), exactly one refresh exchange is
attempted, and on success the returned session carries the `access_token`,
`refresh_token` and `expires_at` of the exchange response. -/
theorem get_client_refresh_threshold (now : Int) (st : SessionState)
    (ex : ExchangeOutcome) :
    (now ≤ st.expires_at - 300 → get_client now st ex = ⟨st, .ok, 0⟩) ∧
    (st.expires_at - 300 < now →
      (get_client now st ex).attempts = 1 ∧
      ∀ a rt e, ex = .returns ⟨some a, some rt, some e⟩ →
        get_client now st ex = ⟨⟨a, rt, e⟩, .ok, 1⟩) := by
  constructor
  · intro h
    unfold get_client
    rw [if_neg (not_lt.mpr h)]
  · intro h
    refine ⟨?_, ?_⟩
    · unfold get_client
      rw [if_pos h]
      cases ex with
      | raises => rfl
      | returns r =>
        obtain ⟨ra, rr, re⟩ := r
        cases ra <;> cases rr <;> cases re <;> rfl
    · intro a rt e hex
      subst hex
      unfold get_client
      rw [if_pos h]

/-- C2 witness: a fresh session (now `500`, expiry `1000`) is returned
unchanged with no attempt; an expiring one (now `800`) is refreshed once
and carries the response values. -/
theorem get_client_refresh_threshold_w :
    get_client 500 ⟨"tokA", "tokR", 1000⟩ .raises
      = ⟨⟨"tokA", "tokR", 1000⟩, .ok, 0⟩ ∧
    get_client 800 ⟨"tokA", "tokR", 1000⟩
        (.returns ⟨some "newA", some "newR", some 2000⟩)
      = ⟨⟨"newA", "newR", 2000⟩, .ok, 1⟩ :=
  ⟨(get_client_refresh_threshold 500 ⟨"tokA", "tokR", 1000⟩ .raises).1
      (by decide),
   ((get_client_refresh_threshold 800 ⟨"tokA", "tokR", 1000⟩
        (.returns ⟨some "newA", some "newR", some 2000⟩)).2
      (by decide)).2 "newA" "newR" 2000 rfl⟩

/-- C3 counterexample: a refresh exchange whose response holds an
`access_token` but no `refresh_token` key fails the call (the `KeyError`
is caught and the generic error is raised), yet the session's
`access_token` has already been overwritten — the state is not left exactly
as it was. -/
theorem c3_partial_mutation :
    (get_client 10000 ⟨"oldA", "oldR", 0⟩
        (.returns ⟨some "newA", none, none⟩)).result = .authError ∧
    (get_client 10000 ⟨"oldA", "oldR", 0⟩
        (.returns ⟨some "newA", none, none⟩)).state ≠ ⟨"oldA", "oldR", 0⟩ :=
  ⟨rfl, by decide⟩

/-- C3 (amended): every failing refresh attempt fails the call with the
generic `AuthenticationError`; the session state is left exactly unchanged
when the exchange itself raises or when its response lacks `access_token`,
but a response missing a later key leaves the fields read before it
already overwritten (`access_token`, then also `refresh_token`). -/
theorem get_client_failure_state (now : Int) (st : SessionState)
    (h : st.expires_at - 300 < now) :
    get_client now st .raises = ⟨st, .authError, 1⟩ ∧
    (∀ r : RefreshResponse, r.access_token = none →
      get_client now st (.returns r) = ⟨st, .authError, 1⟩) ∧
    (∀ r : RefreshResponse, ∀ a, r.access_token = some a →
      r.refresh_token = none →
      get_client now st (.returns r)
        = ⟨{ st with access_token := a }, .authError, 1⟩) ∧
    (∀ r : RefreshResponse, ∀ a rt, r.access_token = some a →
      r.refresh_token = some rt → r.expires_at = none →
      get_client now st (.returns r)
        = ⟨{ st with access_token := a, refresh_token := rt },
           .authError, 1⟩) := by
  refine ⟨?_, ?_, ?_, ?_⟩
  · simp [get_client, h]
  · intro r hr
    simp [get_client, h, hr]
  · intro r a ha hr
    simp [get_client, h, ha, hr]
  · intro r a rt ha hr he
    simp [get_client, h, ha, hr, he]

/-- C3 witness: the amended claim at a raising exchange and at a response
carrying only an `access_token`. -/
theorem get_client_failure_state_w :
    get_client 1000 ⟨"oldA", "oldR", 0⟩ .raises
      = ⟨⟨"oldA", "oldR", 0⟩, .authError, 1⟩ ∧
    get_client 1000 ⟨"oldA", "oldR", 0⟩ (.returns ⟨some "newA", none, none⟩)
      = ⟨⟨"newA", "oldR", 0⟩, .authError, 1⟩ := by
  have h := get_client_failure_state 1000 ⟨"oldA", "oldR", 0⟩ (by decide)
  exact ⟨h.1, h.2.2.1 ⟨some "newA", none, none⟩ "newA" rfl rfl⟩

/-- C4: the result of `search_activities` is exactly the fetched activities
that satisfy the conjunction of the four set predicates — case-insensitive
substring match of `query` against the name, case-insensitive substring
match of `activity_type` against the type string, inclusive `min_distance`
lower bound, inclusive `max_distance` upper bound, unset predicates
vacuously true — normalized, in fetch order (a `filter` keeps order and
re-sorts nothing). -/
theorem search_activities_filter_exact (parse : String → Option Int)
    (fetch : Option Int → Option Int → Int → List RawActivity)
    (query activity_type after before : Option String)
    (mn mx : Option Rat) (limit : Int) :
    (search_activities parse fetch query activity_type after before
        mn mx limit).result
      = ((fetch (parseBound parse before "before").1
            (parseBound parse after "after").1 limit).filter
          (specPredicate query activity_type mn mx)).map normalizeSummary := by
  simp only [search_activities]
  congr 1
  exact List.filter_congr
    (fun x _ => keep_eq_spec query activity_type mn mx x)

/-- C5: a malformed date bound does not abort the call — the run with the
malformed `after` (resp. `before`) string equals the run with that bound
absent, except that a diagnostic for the bound is emitted; the fetch
proceeds with the remaining bound and the limit. -/
theorem search_activities_malformed_date (parse : String → Option Int)
    (fetch : Option Int → Option Int → Int → List RawActivity)
    (query activity_type other : Option String) (s : String)
    (mn mx : Option Rat) (limit : Int)
    (hs : (s == "") = false) (hp : parse (s.replace "Z" "+00:00") = none) :
    (search_activities parse fetch query activity_type (some s) other
        mn mx limit
      = { search_activities parse fetch query activity_type none other
            mn mx limit with
          log := ("Warning: Invalid after date format: " ++ s) ::
            (search_activities parse fetch query activity_type none other
              mn mx limit).log }) ∧
    (search_activities parse fetch query activity_type other (some s)
        mn mx limit
      = { search_activities parse fetch query activity_type other none
            mn mx limit with
          log := (search_activities parse fetch query activity_type other
              none mn mx limit).log ++
            ["Warning: Invalid before date format: " ++ s] }) := by
  constructor <;> simp [search_activities, parseBound, hs, hp]

/-- C5 witness: a concrete malformed `after` string is ignored, logged, and
the fetch happens with no bounds and the limit. -/
theorem search_activities_malformed_date_w :
    search_activities (fun _ => none) (fun _ _ _ => []) none none
        (some "bad-date") none none none 5
      = ⟨[⟨none, none, 5⟩], ["Warning: Invalid after date format: bad-date"],
         []⟩ := by
  have h := (search_activities_malformed_date (fun _ => none)
    (fun _ _ _ => []) none none none "bad-date" none none 5
    (by decide) rfl).1
  rw [h]
  rfl

/-- C6 counterexample: normalizing an activity whose `type` field is absent
yields the string `"None"` (the `str()` rendering of Python `None`), not
the empty string the claim requires for non-nullable string fields. -/
theorem c6_type_renders_none :
    (normalizeDetail {}).type = "None" ∧ (normalizeDetail {}).type ≠ "" :=
  ⟨rfl, by decide⟩

/-- C6 (amended): each normalization function (activity summary, activity
detail, lap, athlete stats, streams) is total (never raises, by
construction of the embedding); absent duration fields normalize to `0`
seconds, quantities default to `0`, identifiers to `0`, non-nullable
strings to the empty string, and unset streams stay unset — with the
exceptions the code forces: the activity `type` is rendered with `str()`
and becomes `"None"` when absent; and the bare `getattr` reads
(`lap_index`, athlete `firstname`/`lastname`) default only a *missing*
attribute, passing a present-but-null one through as `None`. -/
theorem normalize_absent_defaults (a : RawActivity) (l : RawLap)
    (ath : RawAthlete) (st : RawStats) (r : RawStreams) :
    (a.moving_time = none → (normalizeSummary a).moving_time = 0) ∧
    (a.id = none → (normalizeSummary a).id = 0) ∧
    (a.name = none → (normalizeSummary a).name = "") ∧
    (a.type = none → (normalizeSummary a).type = "None") ∧
    (a.distance = none → (normalizeSummary a).distance = 0) ∧
    (a.total_elevation_gain = none →
      (normalizeSummary a).total_elevation_gain = 0) ∧
    (a.moving_time = none → (normalizeDetail a).moving_time = 0) ∧
    (a.elapsed_time = none → (normalizeDetail a).elapsed_time = 0) ∧
    (a.id = none → (normalizeDetail a).id = 0) ∧
    (a.name = none → (normalizeDetail a).name = "") ∧
    (a.type = none → (normalizeDetail a).type = "None") ∧
    (a.distance = none → (normalizeDetail a).distance = 0) ∧
    (a.total_elevation_gain = none →
      (normalizeDetail a).total_elevation_gain = 0) ∧
    (a.average_speed = none → (normalizeDetail a).average_speed = 0) ∧
    (a.max_speed = none → (normalizeDetail a).max_speed = 0) ∧
    (l.moving_time = none → (normalizeLap l).moving_time = 0) ∧
    (l.elapsed_time = none → (normalizeLap l).elapsed_time = 0) ∧
    (l.id = none → (normalizeLap l).id = 0) ∧
    (l.activity_id = .missing → (normalizeLap l).activity_id = 0) ∧
    (l.activity_id = .null → (normalizeLap l).activity_id = 0) ∧
    (l.lap_index = .missing → (normalizeLap l).lap_index = some 0) ∧
    (l.lap_index = .null → (normalizeLap l).lap_index = none) ∧
    (l.name = none → (normalizeLap l).name = "") ∧
    (l.distance = none → (normalizeLap l).distance = 0) ∧
    (ath.firstname = .missing →
      (get_athlete_stats ath st).firstname = some "") ∧
    (ath.firstname = .null → (get_athlete_stats ath st).firstname = none) ∧
    (ath.lastname = .missing →
      (get_athlete_stats ath st).lastname = some "") ∧
    (st.recent_run_totals = none →
      (get_athlete_stats ath st).recent_run_totals.distance = 0) ∧
    (st.recent_run_totals = none →
      (get_athlete_stats ath st).recent_run_totals.achievement_count = 0) ∧
    (∀ rt : RawTotals, st.recent_run_totals = some rt →
      rt.distance = .null →
      (get_athlete_stats ath st).recent_run_totals.distance = 0) ∧
    (r.time = .missing → (get_activity_streams r).time = none) := by
  refine ⟨?_, ?_, ?_, ?_, ?_, ?_, ?_, ?_, ?_, ?_, ?_, ?_, ?_, ?_, ?_, ?_,
    ?_, ?_, ?_, ?_, ?_, ?_, ?_, ?_, ?_, ?_, ?_, ?_, ?_, ?_, ?_⟩ <;>
    (intros;
     simp [normalizeSummary, normalizeDetail, normalizeLap,
       get_athlete_stats, get_val, getattrD, get_activity_streams,
       get_stream_data, orInt, orStr, pyStr, secondsOr0, floatOrZero, *])

/-- C6 witness: the fully-absent raw entities normalize to zero durations,
a missing `lap_index` and `firstname` to their defaults, and the
present-but-null ones to `None`, all without failing. -/
theorem normalize_absent_defaults_w :
    (normalizeDetail {}).moving_time = 0 ∧
    (normalizeDetail {}).elapsed_time = 0 ∧
    (normalizeLap {}).lap_index = some 0 ∧
    (normalizeLap { lap_index := PyAttr.null }).lap_index = none ∧
    (get_athlete_stats {} {}).firstname = some "" ∧
    (get_athlete_stats { firstname := PyAttr.null } {}).firstname
      = none := by
  obtain ⟨_, _, _, _, _, _, d1, d2, _, _, _, _, _, _, _, _, _, _, _, _, l21,
    _, _, _, t25, _, _, _, _, _, _⟩ :=
    normalize_absent_defaults {} {} {} {} {}
  obtain ⟨_, _, _, _, _, _, _, _, _, _, _, _, _, _, _, _, _, _, _, _, _, l22,
    _, _, _, t26, _, _, _, _, _⟩ :=
    normalize_absent_defaults {} { lap_index := PyAttr.null }
      { firstname := PyAttr.null } {} {}
  exact ⟨d1 rfl, d2 rfl, l21 rfl, l22 rfl, t25 rfl, t26 rfl⟩

/-- C7: serializing a `StreamBundle` emits exactly the keys whose stream is
set (in field order) and omits every unset stream; a bundle populated only
with `time` data serializes to the single-key mapping `time`, with no
null-valued keys present (the serialized mapping carries no optional
values at all). -/
theorem to_dict_omits_unset (s : ActivityStreams) :
    s.to_dict.map Prod.fst = streamKeys.filter (streamIsSet s) ∧
    ∀ t : List Int,
      ActivityStreams.to_dict { time := some t }
        = [("time", StreamVal.ints t)] :=
  ⟨to_dict_keys_eq s, fun t => rfl⟩

/-- C8 counterexample: `"²".isdigit()` is `True` in Python, so the
guarded branch evaluates `int("²")`, which raises `ValueError`: the id is
passed neither as an integer nor as an opaque string (the exception is
caught by the surrounding `except` and the call fails before any
exchange), refuting the claimed two-way dichotomy for every id string. -/
theorem c8_superscript_digit :
    pyIsdigit unicodeFragment "²" = true ∧
    clientIdForExchange unicodeFragment "²" = none :=
  ⟨by decide, by decide⟩

/-- C8 (amended): for every client id string, over any character database
in which the sign characters are not digits: an id rejected by
`str.isdigit()` is passed through unchanged as an opaque string; an id
accepted by `isdigit()` all of whose characters are decimal digits (ASCII
or any other Unicode decimal digit) is converted and passed as the integer
it denotes; an id accepted by `isdigit()` containing a character with no
decimal value (such as `'²'`) makes `int()` raise inside the guarded
`try`, so no representation is passed and the call fails with the generic
`AuthenticationError` before any exchange. -/
theorem clientId_representation (u : UnicodeTables)
    (hminus : u.isDigitChar '-' = false)
    (hplus : u.isDigitChar '+' = false) (cid : String) :
    (pyIsdigit u cid = false →
      clientIdForExchange u cid = some (.strArg cid)) ∧
    (pyIsdigit u cid = true →
      cid.toList.all (fun c => (u.decimalDigitVal c).isSome) = true →
      ∃ n : Nat, digitsVal u cid.toList = some n ∧
        clientIdForExchange u cid = some (.intArg (n : Int))) ∧
    (pyIsdigit u cid = true →
      cid.toList.all (fun c => (u.decimalDigitVal c).isSome) = false →
      clientIdForExchange u cid = none) := by
  have hcond : (pyTruthyStr cid && pyIsdigit u cid) = pyIsdigit u cid := by
    unfold pyTruthyStr pyIsdigit
    cases h1 : cid.toList.isEmpty <;>
      cases h2 : cid.toList.all u.isDigitChar <;> rfl
  refine ⟨?_, ?_, ?_⟩
  · intro hd
    unfold clientIdForExchange
    rw [hcond, hd]
    rfl
  · intro hd hdec
    have hs : (digitsVal u cid.toList).isSome = true := by
      rw [digitsVal_isSome]
      exact hdec
    obtain ⟨n, hn⟩ := Option.isSome_iff_exists.mp hs
    refine ⟨n, hn, ?_⟩
    unfold clientIdForExchange
    rw [hcond, hd, pyInt_of_isdigit u hminus hplus cid hd, hn]
    rfl
  · intro hd hdec
    have hs : digitsVal u cid.toList = none := by
      cases hval : digitsVal u cid.toList with
      | none => rfl
      | some v =>
        have h2 := digitsVal_isSome u cid.toList
        rw [hval, hdec] at h2
        simp at h2
    unfold clientIdForExchange
    rw [hcond, hd, pyInt_of_isdigit u hminus hplus cid hd, hs]
    rfl

/-- C8 witness: an ASCII-numeric id and a Unicode-decimal id are passed as
their integer values, a non-numeric id passes through unchanged, and the
superscript digit fails the conversion. -/
theorem clientId_representation_w :
    clientIdForExchange unicodeFragment "12345" = some (.intArg 12345) ∧
    clientIdForExchange unicodeFragment "٣" = some (.intArg 3) ∧
    clientIdForExchange unicodeFragment "abc123"
      = some (.strArg "abc123") ∧
    clientIdForExchange unicodeFragment "²" = none := by
  have h1 := clientId_representation unicodeFragment (by decide) (by decide)
    "12345"
  have h2 := clientId_representation unicodeFragment (by decide) (by decide)
    "٣"
  have h3 := clientId_representation unicodeFragment (by decide) (by decide)
    "abc123"
  have h4 := clientId_representation unicodeFragment (by decide) (by decide)
    "²"
  refine ⟨?_, ?_, h3.1 (by decide), h4.2.2 (by decide) (by decide)⟩
  · obtain ⟨n, hn, hc⟩ := h1.2.1 (by decide) (by decide)
    rw [hc]
    have hv : digitsVal unicodeFragment "12345".toList = some 12345 := by
      decide
    rw [hn] at hv
    rw [Option.some_inj.mp hv]
    rfl
  · obtain ⟨n, hn, hc⟩ := h2.2.1 (by decide) (by decide)
    rw [hc]
    have hv : digitsVal unicodeFragment "٣".toList = some 3 := by decide
    rw [hn] at hv
    rw [Option.some_inj.mp hv]
    rfl

/-- C9: a lap field among `average_cadence`, `average_watts`,
`average_heartrate`, `max_heartrate` whose upstream value is the number `0`
normalizes to `None`, not to `0` — the truthiness-based defaulting makes a
genuine zero measurement indistinguishable from an absent one. -/
theorem lap_zero_is_null (l : RawLap) :
    (l.average_cadence = some 0 → (normalizeLap l).average_cadence = none) ∧
    (l.average_watts = some 0 → (normalizeLap l).average_watts = none) ∧
    (l.average_heartrate = some 0 →
      (normalizeLap l).average_heartrate = none) ∧
    (l.max_heartrate = some 0 → (normalizeLap l).max_heartrate = none) ∧
    normalizeLap { l with average_cadence := some 0 }
      = normalizeLap { l with average_cadence := none } := by
  refine ⟨?_, ?_, ?_, ?_, ?_⟩
  · intro h; simp [normalizeLap, floatOrNone, h]
  · intro h; simp [normalizeLap, floatOrNone, h]
  · intro h; simp [normalizeLap, floatOrNone, h]
  · intro h; simp [normalizeLap, floatOrNone, h]
  · simp [normalizeLap, floatOrNone]

/-- C9 witness: a lap with a zero cadence measurement normalizes it to
`None`. -/
theorem lap_zero_is_null_w :
    (normalizeLap { average_cadence := some 0 }).average_cadence = none :=
  (lap_zero_is_null { average_cadence := some 0 }).1 rfl

/-- C10: a stream name present in the upstream response whose object lacks
a `data` attribute is treated exactly like an absent name: the resulting
bundle is identical to the one built with the name missing, the field is
unset, and the key is omitted from serialized output. -/
theorem streams_missing_data_attr (r : RawStreams) :
    get_activity_streams (stripNoData r) = get_activity_streams r ∧
    (r.time = .noData →
      (get_activity_streams r).time = none ∧
      "time" ∉ (get_activity_streams r).to_dict.map Prod.fst) := by
  constructor
  · simp only [get_activity_streams, stripNoData, get_stream_data_strip]
  · intro h
    have ht : (get_activity_streams r).time = none := by
      simp [get_activity_streams, h, get_stream_data]
    refine ⟨ht, ?_⟩
    rw [to_dict_keys_eq]
    intro hmem
    rw [List.mem_filter] at hmem
    have hset := hmem.2
    simp [streamIsSet, ht] at hset

/-- C10 witness: a `time` entry without a `data` attribute leaves the
`time` field unset. -/
theorem streams_missing_data_attr_w :
    (get_activity_streams { time := RawStream.noData }).time = none :=
  ((streams_missing_data_attr { time := RawStream.noData }).2 rfl).1

end StravaMCP
